import Mathlib

/-!
Shallow embedding of `klio_core/options.py` (klio repository): the
`MutuallyExclusiveOption` click wrapper, the GCS-URI validator
`_verify_gcs_uri`, and the shared option factories `job_dir` and
`config_file`.

Python strings are `String`; a Python `set` of strings (built by
`set(list)`) is modelled as the deduplicated list `List.dedup`, which
fixes one iteration order (Python set iteration order is unspecified);
the absent/`None` value threaded through click callbacks is
`Option String`.
-/

/-- Python `var.replace("_", "-")`: since the pattern is a single
character, this replaces every occurrence of that character. -/
def pyReplaceChar (s : String) (a b : Char) : String :=
  String.mk (s.data.map (fun c => if c = a then b else c))

/-- Embedding of `MutuallyExclusiveOption._varname_to_opt_flag`:
`return "--" + var.replace("_", "-")`. -/
def varname_to_opt_flag (var : String) : String :=
  "--" ++ pyReplaceChar var '_' '-'

/-- The state of a constructed `MutuallyExclusiveOption` that the claims
depend on: the option's `name`, the stored companion set `mut_ex_opts`,
and the final help text. -/
structure MutuallyExclusiveOption where
  name : String
  mut_ex_opts : List String
  help : String
deriving DecidableEq, Repr

/-- The help-text suffix built in `MutuallyExclusiveOption.__init__` when
the companion set is non-empty: each companion is rendered by
`_varname_to_opt_flag`, wrapped in double backticks, and the results are
joined with `", "`. -/
def mutexHelpNote (mut_ex_opts : List String) : String :=
  "\n\n**NOTE:** This option is mutually exclusive with [" ++
    String.intercalate ", "
      (mut_ex_opts.map (fun m => "``" ++ varname_to_opt_flag m ++ "``")) ++
    "]."

/-- Embedding of `MutuallyExclusiveOption.__init__`: the
`mutually_exclusive` keyword (a list, default `[]`) is stored as a set
(`set(...)`, modelled by `List.dedup`), and when that set is non-empty
the caller-supplied help text is extended with `mutexHelpNote`. -/
def MutuallyExclusiveOption.init (name : String) (mutually_exclusive : List String)
    (help_text : String) : MutuallyExclusiveOption :=
  let mutEx := mutually_exclusive.dedup
  { name := name
    mut_ex_opts := mutEx
    help := if mutEx.isEmpty then help_text else help_text ++ mutexHelpNote mutEx }

/-- Outcome of `MutuallyExclusiveOption.handle_parse_result`: either a
raised `click.UsageError` carrying its message, or delegation to the
normal `click.Option.handle_parse_result`. -/
inductive ParseResult where
  | usageError (msg : String)
  | delegate
deriving DecidableEq, Repr

/-- Python `self.mut_ex_opts.intersection(opts)`: the companions that are
among the supplied option names. -/
def pyIntersection (s opts : List String) : List String :=
  s.filter (fun m => opts.contains m)

/-- The `click.UsageError` message built in `handle_parse_result`: the
option's own flag, and every member of `self.mut_ex_opts` rendered as a
backtick-quoted long flag and joined with `", "`. -/
def usageErrorMsg (o : MutuallyExclusiveOption) : String :=
  "Illegal usage: `" ++ varname_to_opt_flag o.name ++
    "` is mutually exclusive with " ++
    String.intercalate ", "
      (o.mut_ex_opts.map (fun m => "`" ++ varname_to_opt_flag m ++ "`")) ++
    "."

/-- Embedding of `MutuallyExclusiveOption.handle_parse_result`: `opts` is
the set of option names supplied in this invocation (the keys of click's
`opts` mapping). The error is raised when
`self.mut_ex_opts.intersection(opts)` is truthy (non-empty) and
`self.name in opts`; otherwise the call delegates to the superclass. -/
def MutuallyExclusiveOption.handle_parse_result (o : MutuallyExclusiveOption)
    (opts : List String) : ParseResult :=
  if !(pyIntersection o.mut_ex_opts opts).isEmpty && opts.contains o.name then
    ParseResult.usageError (usageErrorMsg o)
  else
    ParseResult.delegate

/-- Whether the parse result is a raised usage error. -/
def ParseResult.isUsageError : ParseResult → Bool
  | ParseResult.usageError _ => true
  | ParseResult.delegate => false

/-- Outcome of `_verify_gcs_uri`: a raised `click.BadParameter` carrying
its message, or the returned value. -/
inductive VerifyResult where
  | badParameter (msg : String)
  | ok (value : Option String)
deriving DecidableEq, Repr

/-- Python truthiness of an optional string value: `None` and the empty
string are falsy. -/
def pyTruthyStr : Option String → Bool
  | none => false
  | some s => !s.isEmpty

/-- Python `value.startswith(p)` on an optional string (only reached when
the value is a string). -/
def pyStartsWith : Option String → String → Bool
  | none, _ => false
  | some s, p => s.startsWith p

/-- Embedding of `_verify_gcs_uri`: raise `click.BadParameter` when the
value is truthy and does not start with `gs://`; otherwise return the
value unchanged. -/
def verify_gcs_uri (value : Option String) : VerifyResult :=
  if pyTruthyStr value && !(pyStartsWith value "gs://") then
    VerifyResult.badParameter
      "Unsupported location type. Please provide a GCS location with the `gs://` prefix."
  else
    VerifyResult.ok value

/-- Model of a `click.Path` type: whether `exists=True` was passed. -/
structure ClickPath where
  mustExist : Bool
deriving DecidableEq, Repr

/-- Modelled from the spec: `click.Path` itself is the external CLI
framework, not part of the given sources. Per the spec, a
`click.Path(exists=True)` value "must exist at parse time": the check
accepts a path iff existence is not required or the path exists in the
ambient filesystem (given here as a predicate). -/
def clickPathAccepts (t : ClickPath) (fsHasPath : String → Bool) (path : String) : Bool :=
  !t.mustExist || fsHasPath path

/-- A declared click option as produced by the factories in
`options.py`: short and long flags, the `click.Path` value type, and the
underlying `MutuallyExclusiveOption`. -/
structure OptionDecl where
  shortFlag : String
  longFlag : String
  pathType : ClickPath
  option : MutuallyExclusiveOption
deriving DecidableEq, Repr

/-- A command function, identified by the options attached to it so far. -/
structure Command where
  attached : List OptionDecl
deriving DecidableEq, Repr

/-- Applying `click.option(...)(func)`: attach the declared option to the
command function. -/
def attachOption (d : OptionDecl) (func : Command) : Command :=
  { attached := d :: func.attached }

/-- The help text passed for `--job-dir` in `job_dir`. -/
def jobDirHelp : String :=
  "Job directory where the job's ``Dockerfile`` is located. Defaults current working directory."

/-- The option declaration built inside `job_dir`'s `wrapper`:
`click.option("-j", "--job-dir", type=click.Path(exists=True), help=...,
cls=MutuallyExclusiveOption, mutually_exclusive=mutually_exclusive)`.
The option's click-derived name is `job_dir`. -/
def job_dir_decl (mutually_exclusive : List String) : OptionDecl :=
  { shortFlag := "-j"
    longFlag := "--job-dir"
    pathType := { mustExist := true }
    option := MutuallyExclusiveOption.init "job_dir" mutually_exclusive jobDirHelp }

/-- The help text passed for `--config-file` in `config_file`. -/
def configFileHelp : String :=
  "Path to config filename. If ``PATH`` is not absolute, it will be treated relative to ``--job-dir``. Defaults to ``klio-job.yaml``."

/-- The option declaration built inside `config_file`'s `wrapper`:
`click.option("-c", "--config-file", type=click.Path(exists=False), ...)`.
The option's click-derived name is `config_file`. -/
def config_file_decl (mutually_exclusive : List String) : OptionDecl :=
  { shortFlag := "-c"
    longFlag := "--config-file"
    pathType := { mustExist := false }
    option := MutuallyExclusiveOption.init "config_file" mutually_exclusive configFileHelp }

/-- Result of calling one of the dual-convention factories: either the
already-decorated command (`args` non-empty, bare decorator form), or the
returned `wrapper` closure, represented by its only captured datum, the
`mutually_exclusive` list. -/
inductive FactoryResult where
  | decorated (c : Command)
  | wrapper (mutually_exclusive : List String)
deriving DecidableEq, Repr

/-- The body of `job_dir`'s `wrapper` closure applied to a function. -/
def job_dir_apply (mutually_exclusive : List String) (func : Command) : Command :=
  attachOption (job_dir_decl mutually_exclusive) func

/-- Embedding of the `job_dir` factory's calling convention:
`mutually_exclusive = kwargs.get("mutex", [])`; if positional `args` are
present the first is decorated immediately, otherwise the wrapper is
returned. -/
def job_dir (args : List Command) (mutexKwarg : Option (List String)) : FactoryResult :=
  let mutually_exclusive := mutexKwarg.getD []
  match args with
  | func :: _ => FactoryResult.decorated (job_dir_apply mutually_exclusive func)
  | [] => FactoryResult.wrapper mutually_exclusive

/-- The body of `config_file`'s `wrapper` closure applied to a function. -/
def config_file_apply (mutually_exclusive : List String) (func : Command) : Command :=
  attachOption (config_file_decl mutually_exclusive) func

/-- Embedding of the `config_file` factory's calling convention, same
shape as `job_dir`. -/
def config_file (args : List Command) (mutexKwarg : Option (List String)) : FactoryResult :=
  let mutually_exclusive := mutexKwarg.getD []
  match args with
  | func :: _ => FactoryResult.decorated (config_file_apply mutually_exclusive func)
  | [] => FactoryResult.wrapper mutually_exclusive

/-- Modelled from the spec: the downstream consumers of `--job-dir` (the
CLI command bodies, which are part of the klio repository but not among
the given sources) resolve an unsupplied job directory to the current
working directory, as the spec and the option's own help text state. -/
def resolveJobDir (supplied : Option String) (cwd : String) : String :=
  match supplied with
  | some v => v
  | none => cwd

/-! Helper lemmas shared by the claim theorems. -/

/-- The boolean guard of `handle_parse_result`, characterized in terms of
membership. -/
theorem handle_parse_result_cond (o : MutuallyExclusiveOption) (opts : List String) :
    ((!(pyIntersection o.mut_ex_opts opts).isEmpty && opts.contains o.name) = true) ↔
      (o.name ∈ opts ∧ ∃ m ∈ o.mut_ex_opts, m ∈ opts) := by
  simp [pyIntersection, List.isEmpty_iff, List.filter_eq_nil_iff]
  tauto

/-- `handle_parse_result` written as a propositional case split. -/
theorem handle_parse_result_eq_ite (o : MutuallyExclusiveOption) (opts : List String) :
    o.handle_parse_result opts =
      if o.name ∈ opts ∧ ∃ m ∈ o.mut_ex_opts, m ∈ opts then
        ParseResult.usageError (usageErrorMsg o)
      else ParseResult.delegate := by
  unfold MutuallyExclusiveOption.handle_parse_result
  by_cases h : o.name ∈ opts ∧ ∃ m ∈ o.mut_ex_opts, m ∈ opts
  · rw [if_pos ((handle_parse_result_cond o opts).mpr h), if_pos h]
  · rw [if_neg (fun hc => h ((handle_parse_result_cond o opts).mp hc)), if_neg h]

/-- Claim C1: handling the parse result raises a usage error iff the
option's own name is among the supplied names and the supplied set meets
the companion set; in every other case it delegates to normal parse-result
handling. -/
theorem mutex_usage_error_iff (o : MutuallyExclusiveOption) (opts : List String) :
    ((∃ msg, o.handle_parse_result opts = ParseResult.usageError msg) ↔
      (o.name ∈ opts ∧ ∃ m ∈ o.mut_ex_opts, m ∈ opts)) ∧
    ((o.name ∈ opts ∧ ∃ m ∈ o.mut_ex_opts, m ∈ opts) ∨
      o.handle_parse_result opts = ParseResult.delegate) := by
  rw [handle_parse_result_eq_ite]
  by_cases h : o.name ∈ opts ∧ ∃ m ∈ o.mut_ex_opts, m ∈ opts
  · simp [h]
  · simp [h]

/-- Claim C2, counterexample: with companions `{b, c}` and supplied
options `{a, b}`, the violation message also names `--c`, a companion
that was not supplied, so the message does not name exactly the
companions in violation. -/
theorem mutex_message_not_restricted_to_supplied :
    (MutuallyExclusiveOption.init "a" ["b", "c"] "").handle_parse_result ["a", "b"] =
      ParseResult.usageError "Illegal usage: `--a` is mutually exclusive with `--b`, `--c`." ∧
    (MutuallyExclusiveOption.init "a" ["b", "c"] "").handle_parse_result ["a", "b"] ≠
      ParseResult.usageError "Illegal usage: `--a` is mutually exclusive with `--b`." ∧
    "c" ∉ (["a", "b"] : List String) ∧
    "c" ∈ (MutuallyExclusiveOption.init "a" ["b", "c"] "").mut_ex_opts := by
  decide

/-- Claim C2, amended: whenever a mutual-exclusivity violation is
reported, the message names the offending option's own flag and every
member of the declared companion set, each rendered as a backtick-quoted
long flag — not only the companions actually supplied. -/
theorem mutex_message_lists_all_declared_companions (o : MutuallyExclusiveOption)
    (opts : List String) (msg : String)
    (h : o.handle_parse_result opts = ParseResult.usageError msg) :
    msg = "Illegal usage: `" ++ varname_to_opt_flag o.name ++
        "` is mutually exclusive with " ++
        String.intercalate ", "
          (o.mut_ex_opts.map (fun m => "`" ++ varname_to_opt_flag m ++ "`")) ++ "." := by
  unfold MutuallyExclusiveOption.handle_parse_result at h
  split at h
  · injection h with h1
    subst h1
    rfl
  · simp at h

/-- Witness for the amended C2 at a concrete violation. -/
theorem mutex_message_lists_all_declared_companions_witness :
    "Illegal usage: `--a` is mutually exclusive with `--b`, `--c`." =
      "Illegal usage: `" ++
          varname_to_opt_flag (MutuallyExclusiveOption.init "a" ["b", "c"] "").name ++
        "` is mutually exclusive with " ++
        String.intercalate ", "
          (((MutuallyExclusiveOption.init "a" ["b", "c"] "").mut_ex_opts).map
            (fun m => "`" ++ varname_to_opt_flag m ++ "`")) ++ "." :=
  mutex_message_lists_all_declared_companions
    (MutuallyExclusiveOption.init "a" ["b", "c"] "") ["a", "b"]
    "Illegal usage: `--a` is mutually exclusive with `--b`, `--c`." (by decide)

/-- Claim C3: the GCS-URI validator returns the value unchanged when the
value is falsy or starts with `gs://`, and otherwise raises a
bad-parameter error instructing the user to supply a `gs://`-prefixed
location; its only outcomes are the unchanged value or that error. -/
theorem verify_gcs_uri_spec (value : Option String) :
    (verify_gcs_uri value = VerifyResult.ok value ∨
      verify_gcs_uri value = VerifyResult.badParameter
        "Unsupported location type. Please provide a GCS location with the `gs://` prefix.") ∧
    (verify_gcs_uri value = VerifyResult.ok value ↔
      (pyTruthyStr value = false ∨ pyStartsWith value "gs://" = true)) := by
  cases ht : pyTruthyStr value <;> cases hs : pyStartsWith value "gs://" <;>
    simp [verify_gcs_uri, ht, hs]

/-- Claim C4: an option constructed with an empty companion set keeps the
caller's help text unchanged, stores an empty companion set, and its
parse-result handling always delegates, regardless of which options are
supplied. -/
theorem empty_mutex_behaves_like_plain_option (name help_text : String)
    (opts : List String) :
    (MutuallyExclusiveOption.init name [] help_text).help = help_text ∧
    (MutuallyExclusiveOption.init name [] help_text).mut_ex_opts = [] ∧
    (MutuallyExclusiveOption.init name [] help_text).handle_parse_result opts =
      ParseResult.delegate :=
  ⟨rfl, rfl, rfl⟩

/-- Claim C5: the flag-rendering function maps any identifier to `--`
followed by the identifier with every underscore replaced by a hyphen;
in particular `an_option` maps to `--an-option`. -/
theorem varname_to_opt_flag_spec (var : String) :
    varname_to_opt_flag var =
      String.mk ('-' :: '-' :: var.data.map (fun c => if c = '_' then '-' else c)) ∧
    varname_to_opt_flag "an_option" = "--an-option" :=
  ⟨rfl, by decide⟩

/-- Claim C6: an option constructed with a non-empty companion list has
as help text the caller's help text extended with the note listing each
companion of the stored set rendered as a double-backtick-quoted long
flag. -/
theorem nonempty_mutex_help_suffix (name help_text : String) (l : List String)
    (h : l ≠ []) :
    (MutuallyExclusiveOption.init name l help_text).help =
      help_text ++
        ("\n\n**NOTE:** This option is mutually exclusive with [" ++
          String.intercalate ", "
            (((MutuallyExclusiveOption.init name l help_text).mut_ex_opts).map
              (fun m => "``" ++ varname_to_opt_flag m ++ "``")) ++ "].") := by
  have hd : l.dedup ≠ [] := fun hx => h ((List.dedup_eq_nil l).mp hx)
  have he : l.dedup.isEmpty = false := by
    rcases hl : l.dedup with _ | ⟨a, t⟩
    · exact absurd hl hd
    · rfl
  show (if l.dedup.isEmpty then help_text else help_text ++ mutexHelpNote l.dedup) = _
  rw [he]
  rfl

/-- Witness for C6 at a concrete companion list. -/
theorem nonempty_mutex_help_suffix_witness :
    (MutuallyExclusiveOption.init "x" ["an_option"] "Some help.").help =
      "Some help." ++
        ("\n\n**NOTE:** This option is mutually exclusive with [" ++
          String.intercalate ", "
            (((MutuallyExclusiveOption.init "x" ["an_option"] "Some help.").mut_ex_opts).map
              (fun m => "``" ++ varname_to_opt_flag m ++ "``")) ++ "].") :=
  nonempty_mutex_help_suffix "x" "Some help." ["an_option"] (by decide)

/-- Claim C7: the `--job-dir` option is declared with flags `-j` and
`--job-dir` and a path type requiring existence at parse time, and the
unsupplied value resolves to the current working directory. -/
theorem job_dir_option_spec (mutually_exclusive : List String)
    (fsHasPath : String → Bool) (path cwd : String) :
    (job_dir_decl mutually_exclusive).shortFlag = "-j" ∧
    (job_dir_decl mutually_exclusive).longFlag = "--job-dir" ∧
    (job_dir_decl mutually_exclusive).pathType.mustExist = true ∧
    clickPathAccepts (job_dir_decl mutually_exclusive).pathType fsHasPath path =
      fsHasPath path ∧
    resolveJobDir none cwd = cwd ∧
    resolveJobDir (some path) cwd = path :=
  ⟨rfl, rfl, rfl, rfl, rfl, rfl⟩

/-- Claim C8: for both factories, the bare decorator form equals calling
the factory with no arguments and applying the returned wrapper, with an
empty mutual-exclusivity set in both cases. -/
theorem factories_dual_calling_convention (func : Command) :
    job_dir [func] none = FactoryResult.decorated (job_dir_apply [] func) ∧
    job_dir [] none = FactoryResult.wrapper [] ∧
    config_file [func] none = FactoryResult.decorated (config_file_apply [] func) ∧
    config_file [] none = FactoryResult.wrapper [] ∧
    (job_dir_decl []).option.mut_ex_opts = [] ∧
    (config_file_decl []).option.mut_ex_opts = [] :=
  ⟨rfl, rfl, rfl, rfl, rfl, rfl⟩

/-- Claim C9: when the companion set contains the option's own name,
every invocation supplying the option raises the mutual-exclusivity
usage error, and the option's own flag appears among the rendered
companion flags of the message. -/
theorem self_companion_always_errors (o : MutuallyExclusiveOption)
    (opts : List String) (h1 : o.name ∈ o.mut_ex_opts) (h2 : o.name ∈ opts) :
    o.handle_parse_result opts = ParseResult.usageError (usageErrorMsg o) ∧
    ("`" ++ varname_to_opt_flag o.name ++ "`") ∈
      o.mut_ex_opts.map (fun m => "`" ++ varname_to_opt_flag m ++ "`") := by
  constructor
  · rw [handle_parse_result_eq_ite]
    exact if_pos ⟨h2, o.name, h1, h2⟩
  · exact List.mem_map_of_mem _ h1

/-- Witness for C9: an option listing itself as a companion errors when
supplied. -/
theorem self_companion_always_errors_witness :
    (MutuallyExclusiveOption.init "an_option" ["an_option"] "").handle_parse_result
        ["an_option"] =
      ParseResult.usageError
        (usageErrorMsg (MutuallyExclusiveOption.init "an_option" ["an_option"] "")) ∧
    ("`" ++ varname_to_opt_flag (MutuallyExclusiveOption.init "an_option" ["an_option"] "").name ++ "`") ∈
      (MutuallyExclusiveOption.init "an_option" ["an_option"] "").mut_ex_opts.map
        (fun m => "`" ++ varname_to_opt_flag m ++ "`") :=
  self_companion_always_errors (MutuallyExclusiveOption.init "an_option" ["an_option"] "")
    ["an_option"] (by decide) (by decide)

/-- Claim C10: the companion list is stored deduplicated (no companion
appears twice in the stored set, hence in the note or message built over
it), and for inputs with the same members — regardless of multiplicity —
the validation outcome on any supplied-option set is the same. -/
theorem mutex_set_dedup_invariance (name help_text : String) (l l' opts : List String)
    (h : (l.all (fun x => l'.contains x) && l'.all (fun x => l.contains x)) = true) :
    (MutuallyExclusiveOption.init name l help_text).mut_ex_opts.Nodup ∧
    ((MutuallyExclusiveOption.init name l help_text).handle_parse_result opts).isUsageError =
      ((MutuallyExclusiveOption.init name l' help_text).handle_parse_result opts).isUsageError := by
  have hmem : ∀ x : String, x ∈ l ↔ x ∈ l' := by
    simp only [Bool.and_eq_true, List.all_eq_true] at h
    intro x
    constructor
    · intro hx
      simpa using h.1 x hx
    · intro hx
      simpa using h.2 x hx
  refine ⟨List.nodup_dedup l, ?_⟩
  have e1 : (MutuallyExclusiveOption.init name l help_text).mut_ex_opts = l.dedup := rfl
  have e2 : (MutuallyExclusiveOption.init name l' help_text).mut_ex_opts = l'.dedup := rfl
  have en1 : (MutuallyExclusiveOption.init name l help_text).name = name := rfl
  have en2 : (MutuallyExclusiveOption.init name l' help_text).name = name := rfl
  rw [handle_parse_result_eq_ite, handle_parse_result_eq_ite, e1, e2, en1, en2]
  have hsame : (name ∈ opts ∧ ∃ m ∈ l.dedup, m ∈ opts) ↔
      (name ∈ opts ∧ ∃ m ∈ l'.dedup, m ∈ opts) := by
    simp only [List.mem_dedup]
    constructor
    · rintro ⟨hn, m, hm, hmo⟩
      exact ⟨hn, m, (hmem m).mp hm, hmo⟩
    · rintro ⟨hn, m, hm, hmo⟩
      exact ⟨hn, m, (hmem m).mpr hm, hmo⟩
  by_cases hc : name ∈ opts ∧ ∃ m ∈ l.dedup, m ∈ opts
  · rw [if_pos hc, if_pos (hsame.mp hc)]
    rfl
  · rw [if_neg hc, if_neg (fun hx => hc (hsame.mpr hx))]

/-- Witness for C10: a duplicated companion list and its reordered
deduplication validate identically. -/
theorem mutex_set_dedup_invariance_witness :
    (MutuallyExclusiveOption.init "a" ["b", "b", "c"] "").mut_ex_opts.Nodup ∧
    ((MutuallyExclusiveOption.init "a" ["b", "b", "c"] "").handle_parse_result
        ["a", "b"]).isUsageError =
      ((MutuallyExclusiveOption.init "a" ["c", "b"] "").handle_parse_result
        ["a", "b"]).isUsageError :=
  mutex_set_dedup_invariance "a" "" ["b", "b", "c"] ["c", "b"] ["a", "b"] (by decide)
